import Mathlib

/-!
Shallow embedding of the two source files of the jnywong/cellmap-segmentation-challenge
repository:

- src/cellmap_segmentation_challenge/utils/evaluate.py
  (packaging helpers save_numpy_labels_to_zarr and save_numpy_binary_to_zarr,
   the scorer score_label / score_volume / score_submission, and unzip_file), and
- src/cellmap_segmentation_challenge/utils/loss.py
  (CellMapLossWrapper: constructor kwargs handling and calc_loss).

Modelling choices:
- A 3D numpy array is a shape triple together with its flattened integer data.
- A zarr store on disk is an association list: store root name to root node, root to
  test-volume groups, group to label datasets.  A root node carries its subgroup
  children and its array children separately, because zarr Group.array_keys() lists
  only the array children and skips subgroups.
- os.makedirs(parent) is called with exist_ok unset, so it raises FileExistsError
  when the parent directory already exists; the helpers model this branch.
- Machine floats do not occur: label data are integers, loss values are rationals;
  NaN in a target tensor is modelled as Option.none.
- Exceptions (zarr ContainsArrayError, Python UnboundLocalError and IndexError,
  the shape assertion of score_label) are modelled with Except String.
-/

/-- A 3D numpy array: its shape and its flattened integer data. -/
structure Vol where
  shape : Nat × Nat × Nat
  data : List Int
deriving DecidableEq

/-- A zarr dataset: the stored volume plus the chunk shape given to create_dataset. -/
structure Dataset where
  vol : Vol
  chunks : Nat × Nat × Nat
deriving DecidableEq

/-- A zarr group: label names mapped to datasets, in creation order. -/
abbrev ZGroup := List (String × Dataset)

/-- A zarr store: test-volume names mapped to groups. -/
abbrev ZStore := List (String × ZGroup)

/-- One root store as zarr.open sees it: its subgroup children (the test volumes) and
any array children lying directly at the root.  Group.array_keys() lists only the
array children; subgroups are skipped (group_keys would list those). -/
structure ZRoot where
  groups : ZStore
  arrays : List (String × Dataset)
deriving DecidableEq

/-- The file system roots: store names (for example truth.zarr) mapped to root nodes. -/
abbrev Fs := List (String × ZRoot)

/-- Path components, root first, as produced by UPath. -/
abbrev ZPath := List String

/-- Lookup in an association list (first match wins, as in a Python dict or zarr group). -/
def alookup {β : Type} : List (String × β) → String → Option β
  | [], _ => none
  | (k, v) :: rest, n => if k = n then some v else alookup rest n

/-- Whether an association list contains the given key. -/
def hasKey {β : Type} : List (String × β) → String → Bool
  | [], _ => false
  | (k, _) :: rest, n => if k = n then true else hasKey rest n

/-- Whether a list of names contains the given name. -/
def memb (x : String) : List String → Bool
  | [] => false
  | y :: rest => if y = x then true else memb x rest

/-- UPath(p).name: the last path component. -/
def nameOf (p : ZPath) : String := p.getLastD ""

/-- UPath(p).parent: the path without its last component. -/
def parentOf (p : ZPath) : ZPath := p.dropLast

/-- UPath(p).parent.name. -/
def parentNameOf (p : ZPath) : String := nameOf (parentOf p)

/-- zarr.open on a three-component path (store root / volume / label):
the dataset at that path, when present. -/
def openDatasetAt (fs : Fs) : ZPath → Option Dataset
  | [r, v, l] =>
    (alookup fs r).bind fun root => (alookup root.groups v).bind fun g => alookup g l
  | _ => none

/-- zarr.open on a two-component path (store root / volume): the group, when present. -/
def openGroupAt (fs : Fs) : ZPath → Option ZGroup
  | [r, v] => (alookup fs r).bind fun root => alookup root.groups v
  | _ => none

/-- zarr create_dataset without overwrite: fails when the name already exists in the
group, otherwise appends the new dataset. -/
def createDataset (g : ZGroup) (name : String) (d : Dataset) : Except String ZGroup :=
  if hasKey g name then Except.error "ContainsArrayError" else Except.ok (g ++ [(name, d)])

/-- The write loop of save_numpy_binary_to_zarr: for i, label_name in
enumerate(label_names), create_dataset(label_name, data=labels[i], chunks=(64, 64, 64)).
Indexing labels[i] raises IndexError when out of range. -/
def writeBinaryLabels (labels : List Vol) : List String → Nat → ZGroup → Except String ZGroup
  | [], _, g => Except.ok g
  | name :: rest, i, g =>
    match labels[i]? with
    | none => Except.error "IndexError"
    | some v =>
      match createDataset g name ⟨v, (64, 64, 64)⟩ with
      | Except.error e => Except.error e
      | Except.ok g2 => writeBinaryLabels labels rest (i + 1) g2

/-- The numpy comparison labels == i + 1 on a class-label array: a volume of the same
shape holding 1 where the class label equals the value and 0 elsewhere. -/
def volClassEq (labels : Vol) (k : Int) : Vol :=
  { shape := labels.shape, data := labels.data.map fun x => if x = k then 1 else 0 }

/-- The write loop of save_numpy_labels_to_zarr: for i, label_name in
enumerate(label_name), create_dataset(label_name, data=(labels == i + 1),
chunks=(64, 64, 64)). -/
def writeClassLabels (labels : Vol) : List String → Nat → ZGroup → Except String ZGroup
  | [], _, g => Except.ok g
  | name :: rest, i, g =>
    match createDataset g name ⟨volClassEq labels (Int.ofNat (i + 1)), (64, 64, 64)⟩ with
    | Except.error e => Except.error e
    | Except.ok g2 => writeClassLabels labels rest (i + 1) g2

/-- The error of reading the local variable zarr_group when the submission path already
exists: the store and group are only created in the branch where the path is new. -/
def unboundZarrGroupError : String := "UnboundLocalError: zarr_group"

/-- save_numpy_binary_to_zarr: on a fresh path, os.makedirs(parent) (raising
FileExistsError when the parent directory already exists, exist_ok being unset), then
the store, the test-volume group, and one dataset per label name; on an existing path
the local variable zarr_group is never assigned and the call fails before writing
anything. -/
def save_numpy_binary_to_zarr (pathExists parentExists : Bool) (test_volume_name : String)
    (label_names : List String) (labels : List Vol) : Except String ZStore :=
  if pathExists then Except.error unboundZarrGroupError
  else if parentExists then Except.error "FileExistsError"
  else
    match writeBinaryLabels labels label_names 0 [] with
    | Except.error e => Except.error e
    | Except.ok g => Except.ok [(test_volume_name, g)]

/-- save_numpy_labels_to_zarr: as save_numpy_binary_to_zarr, including the
os.makedirs(parent) FileExistsError branch, but each dataset holds the binary mask
labels == i + 1 of a single class-label array. -/
def save_numpy_labels_to_zarr (pathExists parentExists : Bool) (test_volume_name : String)
    (label_name : List String) (labels : Vol) : Except String ZStore :=
  if pathExists then Except.error unboundZarrGroupError
  else if parentExists then Except.error "FileExistsError"
  else
    match writeClassLabels labels label_name 0 [] with
    | Except.error e => Except.error e
    | Except.ok g => Except.ok [(test_volume_name, g)]

/-- A per-label score dictionary (left empty by the source: the metric body is the
placeholder ellipsis). -/
abbrev Scores := List (String × Rat)

/-- The assertion message of score_label. -/
def shapeAssertError : String :=
  "The predicted and ground truth label volumes must have the same shape."

/-- Reading .shape after zarr.open of a path holding no array: not an assertion
failure. -/
def missingVolumeError : String := "AttributeError: shape"

/-- The ground-truth path consulted by score_label: the literal root truth.zarr joined
with the volume name and label name taken from the predicted path. -/
def truthLabelPathOf (pred_label_path : ZPath) : ZPath :=
  ["truth.zarr", parentNameOf pred_label_path, nameOf pred_label_path]

/-- score_label: open the predicted and ground-truth label volumes, assert equal
shapes, then return the (empty) scores dictionary. -/
def score_label (fs : Fs) (pred_label_path : ZPath) : Except String Scores :=
  match openDatasetAt fs pred_label_path,
      openDatasetAt fs (truthLabelPathOf pred_label_path) with
  | some pred_label, some truth_label =>
    if pred_label.vol.shape = truth_label.vol.shape then Except.ok []
    else Except.error shapeAssertError
  | _, _ => Except.error missingVolumeError

/-- list(set(xs) & set(ys)), modelled as the names of xs also present in ys. -/
def intersect (xs ys : List String) : List String := xs.filter fun x => memb x ys

/-- The ground-truth path consulted by score_volume: the literal root truth.zarr joined
with the volume name taken from the predicted path. -/
def truthVolumePathOf (pred_volume_path : ZPath) : ZPath :=
  ["truth.zarr", nameOf pred_volume_path]

/-- The scores dictionary of one volume: label name to score_label result. -/
abbrev VolumeScores := List (String × Except String Scores)

/-- score_volume: intersect the label names of the predicted volume with those of the
matching truth.zarr volume and run score_label on each name in the intersection. -/
def score_volume (fs : Fs) (pred_volume_path : ZPath) : VolumeScores :=
  (intersect (((openGroupAt fs pred_volume_path).getD []).map Prod.fst)
      (((openGroupAt fs (truthVolumePathOf pred_volume_path)).getD []).map Prod.fst)).map
    fun label => (label, score_label fs (pred_volume_path ++ [label]))

/-- The scores dictionary of a submission: volume name to volume scores. -/
abbrev SubmissionScores := List (String × VolumeScores)

/-- unzip_file: the archive extracts next to the zip into a directory named by the zip
file name split on the dot character, first piece. -/
def unzip_file (zip_path : String) : String :=
  String.mk (zip_path.toList.takeWhile fun c => !(c == Char.ofNat 46))

/-- The volumes variable of score_submission: the intersection of the array_keys()
listings of the submission root and of the truth.zarr root.  array_keys() lists only
the array children of a root, skipping the test-volume groups; and the source computes
this variable and then never uses it. -/
def score_submission_volumes (fs : Fs) (zip_path : String) : List String :=
  intersect (((alookup fs (unzip_file zip_path)).getD ⟨[], []⟩).arrays.map Prod.fst)
    (((alookup fs "truth.zarr").getD ⟨[], []⟩).arrays.map Prod.fst)

/-- The scores dictionary built by score_submission: the comprehension iterates over
pred_volumes, the array_keys() listing of the submission root (not over the computed
intersection).  Since the test volumes are group children, that listing holds only
arrays stored directly at the root. -/
def score_submission_scores (fs : Fs) (zip_path : String) : SubmissionScores :=
  ((((alookup fs (unzip_file zip_path)).getD ⟨[], []⟩).arrays.map Prod.fst)).map
    fun volume => (volume, score_volume fs [unzip_file zip_path, volume])

/-- Modelled from the claim: the volume names present in both the submission and the
ground-truth store.  The test volumes are the group children of the two store roots. -/
def commonVolumeNames (fs : Fs) (zip_path : String) : List String :=
  intersect (((alookup fs (unzip_file zip_path)).getD ⟨[], []⟩).groups.map Prod.fst)
    (((alookup fs "truth.zarr").getD ⟨[], []⟩).groups.map Prod.fst)

/-- What score_submission does with its optional save_path: the files it writes
(json.dump modelled as recording the path and the scores value) and what it returns. -/
structure SubmissionOutcome where
  written : List (String × SubmissionScores)
  returned : Option SubmissionScores

/-- Python truthiness of the save_path argument: None and the empty string are falsy. -/
def truthy : Option String → Bool
  | none => false
  | some p => !(p == "")

/-- score_submission: score the unzipped submission; with a truthy save_path, dump the
scores to that file and return None, otherwise return the scores dictionary. -/
def score_submission (fs : Fs) (zip_path : String) (save_path : Option String) :
    SubmissionOutcome :=
  if truthy save_path then
    { written := [(save_path.getD "", score_submission_scores fs zip_path)],
      returned := none }
  else
    { written := [], returned := some (score_submission_scores fs zip_path) }

/-- target.nan_to_num(0): replace NaN (modelled as none) by 0. -/
def nan_to_num (target : List (Option Rat)) : List Rat := target.map fun t => t.getD 0

/-- target.isnan().logical_not(), as the 0/1 factor it becomes in the product. -/
def notNanMask (target : List (Option Rat)) : List Rat :=
  target.map fun t => match t with | some _ => 1 | none => 0

/-- torch nanmean: the mean over non-NaN entries.  The masked loss tensor of calc_loss
holds rational values only, so no entry is NaN and nanmean divides by the total number
of entries. -/
def listMean (xs : List Rat) : Rat := xs.sum / (xs.length : Rat)

/-- CellMapLossWrapper.calc_loss for an elementwise loss with reduction none:
loss = loss_fn(outputs, target.nan_to_num(0)), then
(loss * target.isnan().logical_not()).nanmean(). -/
def calc_loss (loss_fn : Rat → Rat → Rat) (outputs : List Rat)
    (target : List (Option Rat)) : Rat :=
  listMean (List.zipWith (fun a b => a * b)
    (List.zipWith loss_fn outputs (nan_to_num target)) (notNanMask target))

/-- Modelled from the claim and the class docstring: the loss averaged over exactly the
positions where the target is not NaN. -/
def claimedMaskedLoss (loss_fn : Rat → Rat → Rat) (outputs : List Rat)
    (target : List (Option Rat)) : Rat :=
  listMean ((List.zip outputs target).filterMap fun p => p.2.map fun t => loss_fn p.1 t)

/-- Python dict assignment kwargs[k] = v: update the entry in place, or append it. -/
def setKey : List (String × String) → String → String → List (String × String)
  | [], k, v => [(k, v)]
  | (k0, v0) :: rest, k, v =>
    if k0 = k then (k, v) :: rest else (k0, v0) :: setKey rest k v

/-- CellMapLossWrapper.__init__: self.kwargs = kwargs, then
self.kwargs[reduction key] = none-string, before constructing the wrapped loss with
these kwargs. -/
def wrapper_init_kwargs (kwargs : List (String × String)) : List (String × String) :=
  setKey kwargs "reduction" "none"

def defaultVol : Vol := { shape := (0, 0, 0), data := [] }

def expectedGroup (labels : List Vol) : List String → Nat → ZGroup
  | [], _ => []
  | n :: rest, i => (n, ⟨labels.getD i defaultVol, (64, 64, 64)⟩) :: expectedGroup labels rest (i + 1)

/-- A concrete file system whose predicted and ground-truth label shapes differ. -/
def fsMismatch : Fs :=
  [("pred.zarr", ⟨[("test_volume",
      [("label1", (⟨⟨(2, 2, 2), []⟩, (64, 64, 64)⟩ : Dataset))])], []⟩),
   ("truth.zarr", ⟨[("test_volume",
      [("label1", (⟨⟨(3, 3, 3), []⟩, (64, 64, 64)⟩ : Dataset))])], []⟩)]

/-- A concrete file system whose predicted and ground-truth label shapes agree. -/
def fsMatch : Fs :=
  [("pred.zarr", ⟨[("test_volume",
      [("label1", (⟨⟨(2, 2, 2), []⟩, (64, 64, 64)⟩ : Dataset))])], []⟩),
   ("truth.zarr", ⟨[("test_volume",
      [("label1", (⟨⟨(2, 2, 2), []⟩, (64, 64, 64)⟩ : Dataset))])], []⟩)]

/-- A tiny dataset used in concrete scoring examples. -/
def dsA : Dataset := ⟨⟨(1, 1, 1), [0]⟩, (64, 64, 64)⟩

/-- A well-formed submission holding test-volume groups vol_a and vol_b next to a
ground truth holding the group vol_a; neither store root holds arrays directly. -/
def fsGroupVolumes : Fs :=
  [("submission", ⟨[("vol_a", [("label1", dsA)]), ("vol_b", [("label1", dsA)])], []⟩),
   ("truth.zarr", ⟨[("vol_a", [("label1", dsA)])], []⟩)]

lemma hasKey_append {β : Type} (g h : List (String × β)) (n : String) :
    hasKey (g ++ h) n = (hasKey g n || hasKey h n) := by
  induction g with
  | nil => simp [hasKey]
  | cons e rest ih =>
    obtain ⟨k, v⟩ := e
    by_cases hk : k = n <;> simp [hasKey, hk, ih]

lemma writeBinaryLabels_ok (labels : List Vol) :
    ∀ (names : List String) (i : Nat) (g : ZGroup),
      names.Nodup → (∀ n ∈ names, hasKey g n = false) →
      i + names.length ≤ labels.length →
      writeBinaryLabels labels names i g = Except.ok (g ++ expectedGroup labels names i) := by
  intro names
  induction names with
  | nil => intro i g _ _ _; simp [writeBinaryLabels, expectedGroup]
  | cons n rest ih =>
    intro i g hnd hfresh hlen
    simp only [List.length_cons] at hlen
    have hi : i < labels.length := by omega
    have hsome : labels[i]? = some (labels.getD i defaultVol) := by
      rw [List.getElem?_eq_getElem hi, List.getD_eq_getElem?_getD,
        List.getElem?_eq_getElem hi]
      rfl
    have hfk : hasKey g n = false := hfresh n (by simp)
    rw [writeBinaryLabels, hsome]
    simp only [createDataset, hfk]
    rw [if_neg (by simp)]
    have hnd2 : rest.Nodup := hnd.of_cons
    have hninrest : n ∉ rest := (List.nodup_cons.mp hnd).1
    have hfresh2 : ∀ m ∈ rest,
        hasKey (g ++ [(n, ⟨labels.getD i defaultVol, (64, 64, 64)⟩)]) m = false := by
      intro m hm
      have h1 : hasKey g m = false := hfresh m (by simp [hm])
      have h2 : hasKey [(n, (⟨labels.getD i defaultVol, (64, 64, 64)⟩ : Dataset))] m = false := by
        have hne : n ≠ m := fun he => hninrest (he ▸ hm)
        simp only [hasKey, if_neg hne]
      rw [hasKey_append, h1, h2]
      rfl
    have hlen2 : (i + 1) + rest.length ≤ labels.length := by omega
    show writeBinaryLabels labels rest (i + 1)
        (g ++ [(n, ⟨labels.getD i defaultVol, (64, 64, 64)⟩)]) =
      Except.ok (g ++ expectedGroup labels (n :: rest) i)
    rw [ih (i + 1) _ hnd2 hfresh2 hlen2]
    simp [expectedGroup]

lemma expectedGroup_keys (labels : List Vol) :
    ∀ (names : List String) (i : Nat),
      (expectedGroup labels names i).map Prod.fst = names := by
  intro names
  induction names with
  | nil => intro i; simp [expectedGroup]
  | cons n rest ih => intro i; simp [expectedGroup, ih]

lemma expectedGroup_lookup (labels : List Vol) :
    ∀ (names : List String) (i j : Nat) (hj : j < names.length),
      names.Nodup →
      alookup (expectedGroup labels names i) (names.get ⟨j, hj⟩) =
        some ⟨labels.getD (i + j) defaultVol, (64, 64, 64)⟩ := by
  intro names
  induction names with
  | nil => intro i j hj; simp at hj
  | cons n rest ih =>
    intro i j hj hnd
    cases j with
    | zero => simp [expectedGroup, alookup]
    | succ j2 =>
      have hj2 : j2 < rest.length := by simpa using hj
      have hmem : rest.get ⟨j2, hj2⟩ ∈ rest := List.get_mem rest j2 hj2
      have hne : n ≠ rest.get ⟨j2, hj2⟩ := by
        intro he
        exact (List.nodup_cons.mp hnd).1 (he ▸ hmem)
      have hget : (n :: rest).get ⟨j2 + 1, hj⟩ = rest.get ⟨j2, hj2⟩ := rfl
      rw [hget]
      simp only [expectedGroup, alookup, if_neg hne]
      rw [ih (i + 1) j2 hj2 (List.nodup_cons.mp hnd).2,
        show i + 1 + j2 = i + (j2 + 1) from by omega]

/-- C3 (amended): packaging round-trips for distinct label names: writing a list of 3D
arrays with save_numpy_binary_to_zarr to a fresh submission path whose parent directory
does not yet exist succeeds, and reading the store back yields, under the test volume
group, exactly the given label names as datasets, each holding the array written for
it. -/
theorem save_numpy_binary_roundtrip (tv : String) (names : List String) (labels : List Vol)
    (hnd : names.Nodup) (hlen : names.length = labels.length) :
    ∃ G : ZGroup,
      save_numpy_binary_to_zarr false false tv names labels = Except.ok [(tv, G)] ∧
      alookup [(tv, G)] tv = some G ∧
      G.map Prod.fst = names ∧
      ∀ j (hj : j < names.length),
        alookup G (names.get ⟨j, hj⟩) =
          some ⟨labels.getD j defaultVol, (64, 64, 64)⟩ := by
  refine ⟨expectedGroup labels names 0, ?_, ?_, ?_, ?_⟩
  · unfold save_numpy_binary_to_zarr
    rw [if_neg (by simp), if_neg (by simp)]
    rw [writeBinaryLabels_ok labels names 0 [] hnd (by intro n _; rfl) (by omega)]
    rfl
  · simp [alookup]
  · exact expectedGroup_keys labels names 0
  · intro j hj
    have := expectedGroup_lookup labels names 0 j hj hnd
    simpa using this

/-- The claim of C3 as stated fails twice over: with a duplicated label name the write
aborts with ContainsArrayError, and on a fresh path whose parent directory already
exists (the module docstring example submission.zarr in the current directory)
os.makedirs raises FileExistsError; either way no store can be read back. -/
theorem save_numpy_binary_write_fails :
    save_numpy_binary_to_zarr false false "test_volume" ["label1", "label1"]
        [⟨(1, 1, 1), [0]⟩, ⟨(1, 1, 1), [1]⟩] = Except.error "ContainsArrayError" ∧
      save_numpy_binary_to_zarr false true "test_volume" ["label1"]
        [⟨(1, 1, 1), [0]⟩] = Except.error "FileExistsError" := ⟨rfl, rfl⟩

/-- Witness for the C3 theorem at a concrete input. -/
theorem save_numpy_binary_roundtrip_witness :
    ∃ G : ZGroup,
      save_numpy_binary_to_zarr false false "test_volume" ["label1", "label2"]
          [⟨(1, 1, 1), [0]⟩, ⟨(1, 1, 1), [1]⟩] = Except.ok [("test_volume", G)] ∧
        alookup [("test_volume", G)] "test_volume" = some G ∧
        G.map Prod.fst = ["label1", "label2"] ∧
        ∀ j (hj : j < (["label1", "label2"] : List String).length),
          alookup G ((["label1", "label2"] : List String).get ⟨j, hj⟩) =
            some ⟨([⟨(1, 1, 1), [0]⟩, ⟨(1, 1, 1), [1]⟩] : List Vol).getD j defaultVol,
              (64, 64, 64)⟩ :=
  save_numpy_binary_roundtrip "test_volume" ["label1", "label2"]
    [⟨(1, 1, 1), [0]⟩, ⟨(1, 1, 1), [1]⟩] (by decide) (by decide)

lemma createDataset_ok (g : ZGroup) (n : String) (d : Dataset) (G : ZGroup)
    (h : createDataset g n d = Except.ok G) : G = g ++ [(n, d)] := by
  unfold createDataset at h
  split at h
  · exact absurd h (by simp)
  · cases h; rfl

lemma writeBinaryLabels_inv (labels : List Vol) :
    ∀ (names : List String) (i : Nat) (g G : ZGroup),
      writeBinaryLabels labels names i g = Except.ok G →
      G.map Prod.fst = g.map Prod.fst ++ names ∧
      ∀ e ∈ G, e ∈ g ∨ e.2.chunks = (64, 64, 64) := by
  intro names
  induction names with
  | nil =>
    intro i g G h
    simp only [writeBinaryLabels] at h
    cases h
    exact ⟨by simp, fun e he => Or.inl he⟩
  | cons n rest ih =>
    intro i g G h
    rw [writeBinaryLabels] at h
    cases hidx : labels[i]? with
    | none => rw [hidx] at h; exact absurd h (by simp)
    | some v =>
      rw [hidx] at h
      replace h : (match createDataset g n ⟨v, (64, 64, 64)⟩ with
          | Except.error e => Except.error e
          | Except.ok g2 => writeBinaryLabels labels rest (i + 1) g2) = Except.ok G := h
      cases hcd : createDataset g n ⟨v, (64, 64, 64)⟩ with
      | error e => rw [hcd] at h; exact absurd h (by simp)
      | ok g2 =>
        rw [hcd] at h
        have hg2 : g2 = g ++ [(n, (⟨v, (64, 64, 64)⟩ : Dataset))] :=
          createDataset_ok g n _ g2 hcd
        rw [hg2] at h
        obtain ⟨hkeys, hmem⟩ := ih (i + 1) _ G h
        constructor
        · rw [hkeys]; simp
        · intro e he
          rcases hmem e he with hin | hc
          · rcases List.mem_append.mp hin with hg | hone
            · exact Or.inl hg
            · right
              have : e = (n, ⟨v, (64, 64, 64)⟩) := by simpa using hone
              rw [this]
          · exact Or.inr hc

lemma writeClassLabels_inv (labels : Vol) :
    ∀ (names : List String) (i : Nat) (g G : ZGroup),
      writeClassLabels labels names i g = Except.ok G →
      G.map Prod.fst = g.map Prod.fst ++ names ∧
      ∀ e ∈ G, e ∈ g ∨ e.2.chunks = (64, 64, 64) := by
  intro names
  induction names with
  | nil =>
    intro i g G h
    simp only [writeClassLabels] at h
    cases h
    exact ⟨by simp, fun e he => Or.inl he⟩
  | cons n rest ih =>
    intro i g G h
    rw [writeClassLabels] at h
    cases hcd : createDataset g n ⟨volClassEq labels (Int.ofNat (i + 1)), (64, 64, 64)⟩ with
    | error e => rw [hcd] at h; exact absurd h (by simp)
    | ok g2 =>
      rw [hcd] at h
      have hg2 : g2 =
          g ++ [(n, (⟨volClassEq labels (Int.ofNat (i + 1)), (64, 64, 64)⟩ : Dataset))] :=
        createDataset_ok g n _ g2 hcd
      rw [hg2] at h
      obtain ⟨hkeys, hmem⟩ := ih (i + 1) _ G h
      constructor
      · rw [hkeys]; simp
      · intro e he
        rcases hmem e he with hin | hc
        · rcases List.mem_append.mp hin with hg | hone
          · exact Or.inl hg
          · right
            have : e = (n, ⟨volClassEq labels (Int.ofNat (i + 1)), (64, 64, 64)⟩) := by
              simpa using hone
            rw [this]
        · exact Or.inr hc

/-- C7: every dataset written by the packaging helpers sits under the single top-level
group named after the test volume, one dataset per label name, and every dataset has
chunk shape (64, 64, 64). -/
theorem save_layout_invariant (tv : String) (names : List String) :
    (∀ (pe pa : Bool) (labels : List Vol) (s : ZStore),
        save_numpy_binary_to_zarr pe pa tv names labels = Except.ok s →
        s.map Prod.fst = [tv] ∧ ∀ vg ∈ s, vg.2.map Prod.fst = names ∧
          ∀ e ∈ vg.2, e.2.chunks = (64, 64, 64)) ∧
    (∀ (pe pa : Bool) (labels : Vol) (s : ZStore),
        save_numpy_labels_to_zarr pe pa tv names labels = Except.ok s →
        s.map Prod.fst = [tv] ∧ ∀ vg ∈ s, vg.2.map Prod.fst = names ∧
          ∀ e ∈ vg.2, e.2.chunks = (64, 64, 64)) := by
  constructor
  · intro pe pa labels s h
    unfold save_numpy_binary_to_zarr at h
    cases pe with
    | true => exact absurd h (by simp)
    | false =>
      rw [if_neg (by simp)] at h
      cases pa with
      | true => exact absurd h (by simp)
      | false =>
      rw [if_neg (by simp)] at h
      cases hw : writeBinaryLabels labels names 0 [] with
      | error e => rw [hw] at h; exact absurd h (by simp)
      | ok g =>
        rw [hw] at h
        replace h : ([(tv, g)] : ZStore) = s := by
          simpa using h
        obtain ⟨hkeys, hmem⟩ := writeBinaryLabels_inv labels names 0 [] g hw
        subst h
        refine ⟨by simp, ?_⟩
        intro vg hvg
        have hvg2 : vg = (tv, g) := by simpa using hvg
        subst hvg2
        refine ⟨by simpa using hkeys, ?_⟩
        intro e he
        rcases hmem e he with hin | hc
        · exact absurd hin (by simp)
        · exact hc
  · intro pe pa labels s h
    unfold save_numpy_labels_to_zarr at h
    cases pe with
    | true => exact absurd h (by simp)
    | false =>
      rw [if_neg (by simp)] at h
      cases pa with
      | true => exact absurd h (by simp)
      | false =>
      rw [if_neg (by simp)] at h
      cases hw : writeClassLabels labels names 0 [] with
      | error e => rw [hw] at h; exact absurd h (by simp)
      | ok g =>
        rw [hw] at h
        replace h : ([(tv, g)] : ZStore) = s := by
          simpa using h
        obtain ⟨hkeys, hmem⟩ := writeClassLabels_inv labels names 0 [] g hw
        subst h
        refine ⟨by simp, ?_⟩
        intro vg hvg
        have hvg2 : vg = (tv, g) := by simpa using hvg
        subst hvg2
        refine ⟨by simpa using hkeys, ?_⟩
        intro e he
        rcases hmem e he with hin | hc
        · exact absurd hin (by simp)
        · exact hc

/-- Witness for the C7 theorem: a concrete successful save of one binary label. -/
theorem save_layout_invariant_witness :
    ([("test_volume", [("label1", (⟨⟨(1, 1, 1), [0]⟩, (64, 64, 64)⟩ : Dataset))])] :
        ZStore).map Prod.fst = ["test_volume"] ∧
      ∀ vg ∈ ([("test_volume",
          [("label1", (⟨⟨(1, 1, 1), [0]⟩, (64, 64, 64)⟩ : Dataset))])] : ZStore),
        vg.2.map Prod.fst = ["label1"] ∧ ∀ e ∈ vg.2, e.2.chunks = (64, 64, 64) :=
  (save_layout_invariant "test_volume" ["label1"]).1 false false [⟨(1, 1, 1), [0]⟩] _ rfl

/-- C9: when the submission path already exists, both packaging helpers fail with the
unbound zarr_group error before writing anything; in particular neither can add a
second test volume to an existing store. -/
theorem save_existing_path_unbound (pa : Bool) (tv : String) (names : List String)
    (labelsB : List Vol) (labelsC : Vol) :
    save_numpy_binary_to_zarr true pa tv names labelsB =
        Except.error unboundZarrGroupError ∧
      save_numpy_labels_to_zarr true pa tv names labelsC =
        Except.error unboundZarrGroupError :=
  ⟨rfl, rfl⟩

/-- C4: score_label fails with the shape assertion exactly when the predicted and
ground-truth label volumes (both present) have different shapes.  The only other error
the scorer produces is the modelled attribute error for a missing volume; no further
input validation exists in the embedding of the repository. -/
theorem score_label_assert_iff (fs : Fs) (p : ZPath) (dp dt : Dataset)
    (hp : openDatasetAt fs p = some dp)
    (ht : openDatasetAt fs (truthLabelPathOf p) = some dt) :
    score_label fs p = Except.error shapeAssertError ↔ dp.vol.shape ≠ dt.vol.shape := by
  unfold score_label
  rw [hp, ht]
  by_cases h : dp.vol.shape = dt.vol.shape
  · simp [h]
  · simp [h]

/-- Witness for the C4 theorem: mismatched concrete shapes trigger the assertion. -/
theorem score_label_assert_iff_witness :
    score_label fsMismatch ["pred.zarr", "test_volume", "label1"] =
      Except.error shapeAssertError :=
  (score_label_assert_iff fsMismatch ["pred.zarr", "test_volume", "label1"]
      ⟨⟨(2, 2, 2), []⟩, (64, 64, 64)⟩ ⟨⟨(3, 3, 3), []⟩, (64, 64, 64)⟩ rfl rfl).mpr
    (by decide)

/-- C8: when both label volumes exist and the shapes agree, score_label returns the
empty scores dictionary: the metric body is an unimplemented placeholder. -/
theorem score_label_equal_shapes_empty (fs : Fs) (p : ZPath) (dp dt : Dataset)
    (hp : openDatasetAt fs p = some dp)
    (ht : openDatasetAt fs (truthLabelPathOf p) = some dt)
    (hs : dp.vol.shape = dt.vol.shape) :
    score_label fs p = Except.ok [] := by
  unfold score_label
  rw [hp, ht]
  simp [hs]

/-- Witness for the C8 theorem: equal concrete shapes give the empty dictionary. -/
theorem score_label_equal_shapes_empty_witness :
    score_label fsMatch ["pred.zarr", "test_volume", "label1"] = Except.ok [] :=
  score_label_equal_shapes_empty fsMatch ["pred.zarr", "test_volume", "label1"]
    ⟨⟨(2, 2, 2), []⟩, (64, 64, 64)⟩ ⟨⟨(2, 2, 2), []⟩, (64, 64, 64)⟩ rfl rfl rfl

lemma map_congr_mem {α β : Type} {l : List α} {f g : α → β}
    (h : ∀ a ∈ l, f a = g a) : l.map f = l.map g := by
  induction l with
  | nil => rfl
  | cons x rest ih =>
    simp only [List.map]
    rw [h x (by simp), ih fun a ha => h a (by simp [ha])]

lemma score_label_congr (fs1 fs2 : Fs) (r v l : String)
    (hr : alookup fs1 r = alookup fs2 r)
    (ht : alookup fs1 "truth.zarr" = alookup fs2 "truth.zarr") :
    score_label fs1 [r, v, l] = score_label fs2 [r, v, l] := by
  have e1 : openDatasetAt fs1 [r, v, l] = openDatasetAt fs2 [r, v, l] := by
    have d1 : openDatasetAt fs1 [r, v, l] =
        (alookup fs1 r).bind fun root => (alookup root.groups v).bind fun g =>
          alookup g l := rfl
    have d2 : openDatasetAt fs2 [r, v, l] =
        (alookup fs2 r).bind fun root => (alookup root.groups v).bind fun g =>
          alookup g l := rfl
    rw [d1, d2, hr]
  have e2 : openDatasetAt fs1 ["truth.zarr", v, l] =
      openDatasetAt fs2 ["truth.zarr", v, l] := by
    have d1 : openDatasetAt fs1 ["truth.zarr", v, l] =
        (alookup fs1 "truth.zarr").bind fun root => (alookup root.groups v).bind fun g =>
          alookup g l := rfl
    have d2 : openDatasetAt fs2 ["truth.zarr", v, l] =
        (alookup fs2 "truth.zarr").bind fun root => (alookup root.groups v).bind fun g =>
          alookup g l := rfl
    rw [d1, d2, ht]
  have hpath : truthLabelPathOf [r, v, l] = ["truth.zarr", v, l] := rfl
  unfold score_label
  rw [hpath, e1, e2]

lemma score_volume_congr (fs1 fs2 : Fs) (r v : String)
    (hr : alookup fs1 r = alookup fs2 r)
    (ht : alookup fs1 "truth.zarr" = alookup fs2 "truth.zarr") :
    score_volume fs1 [r, v] = score_volume fs2 [r, v] := by
  have e1 : openGroupAt fs1 [r, v] = openGroupAt fs2 [r, v] := by
    have d1 : openGroupAt fs1 [r, v] =
        (alookup fs1 r).bind fun root => alookup root.groups v := rfl
    have d2 : openGroupAt fs2 [r, v] =
        (alookup fs2 r).bind fun root => alookup root.groups v := rfl
    rw [d1, d2, hr]
  have e2 : openGroupAt fs1 ["truth.zarr", v] = openGroupAt fs2 ["truth.zarr", v] := by
    have d1 : openGroupAt fs1 ["truth.zarr", v] =
        (alookup fs1 "truth.zarr").bind fun root => alookup root.groups v := rfl
    have d2 : openGroupAt fs2 ["truth.zarr", v] =
        (alookup fs2 "truth.zarr").bind fun root => alookup root.groups v := rfl
    rw [d1, d2, ht]
  have hpath : truthVolumePathOf [r, v] = ["truth.zarr", v] := rfl
  unfold score_volume
  rw [hpath, e1, e2]
  apply map_congr_mem
  intro label _
  have happ : ([r, v] : ZPath) ++ [label] = [r, v, label] := rfl
  rw [happ]
  exact congrArg (Prod.mk label) (score_label_congr fs1 fs2 r v label hr ht)

/-- C5: the ground-truth store consulted by the scorer is the hardcoded root
truth.zarr: the truth paths built by score_label and score_volume start with the
literal truth.zarr whatever the predicted path is, and score_submission depends on the
file system only through the submission store and the truth.zarr store. -/
theorem truth_store_hardcoded :
    (∀ p : ZPath, (truthLabelPathOf p).head? = some "truth.zarr") ∧
    (∀ p : ZPath, (truthVolumePathOf p).head? = some "truth.zarr") ∧
    (∀ (fs1 fs2 : Fs) (zip_path : String),
      alookup fs1 "truth.zarr" = alookup fs2 "truth.zarr" →
      alookup fs1 (unzip_file zip_path) = alookup fs2 (unzip_file zip_path) →
      score_submission_scores fs1 zip_path = score_submission_scores fs2 zip_path) := by
  refine ⟨fun p => rfl, fun p => rfl, ?_⟩
  intro fs1 fs2 zip_path ht hr
  unfold score_submission_scores
  rw [hr]
  apply map_congr_mem
  intro volume _
  exact congrArg (Prod.mk volume)
    (score_volume_congr fs1 fs2 (unzip_file zip_path) volume hr ht)

/-- Witness for the C5 theorem: two concrete file systems agreeing on the submission
store and on (the absent) truth.zarr give identical submission scores. -/
theorem truth_store_hardcoded_witness :
    score_submission_scores [("submission", ⟨[], []⟩)] "submission.zip" =
      score_submission_scores [("submission", ⟨[], []⟩), ("other", ⟨[], []⟩)]
        "submission.zip" :=
  truth_store_hardcoded.2.2 [("submission", ⟨[], []⟩)]
    [("submission", ⟨[], []⟩), ("other", ⟨[], []⟩)] "submission.zip" rfl rfl

/-- C1 (failing input): on a well-formed submission whose test volumes are zarr
groups, score_submission scores nothing: array_keys() on the store roots lists only
array children and skips the test-volume groups, so pred_volumes, truth_volumes and
the volumes intersection of the source are all empty, and the scores dictionary built
from pred_volumes is empty too — while the claim requires exactly the common volume
name vol_a to be scored.  (Even with volume names available, the comprehension
iterates over pred_volumes, not over the computed intersection, which the source never
uses.) -/
theorem score_submission_scores_nothing :
    (score_submission_scores fsGroupVolumes "submission.zip").map Prod.fst = [] ∧
      score_submission_volumes fsGroupVolumes "submission.zip" = [] ∧
      commonVolumeNames fsGroupVolumes "submission.zip" = ["vol_a"] ∧
      ([] : List String) ≠ ["vol_a"] :=
  ⟨rfl, rfl, rfl, by decide⟩

/-- C2 (failing input): with the squared-error elementwise loss, outputs [1, 1] and
target [0, NaN], calc_loss divides the masked loss sum by the total element count and
returns one half, while averaging over the single non-NaN position (as the claim and
the class docstring state) gives one. -/
theorem calc_loss_counts_nan_positions :
    calc_loss (fun o t => (o - t) ^ 2) [1, 1] [some 0, none] = 1 / 2 ∧
      claimedMaskedLoss (fun o t => (o - t) ^ 2) [1, 1] [some 0, none] = 1 ∧
      (1 / 2 : Rat) ≠ 1 := by
  refine ⟨?_, ?_, by norm_num⟩
  · norm_num [calc_loss, nan_to_num, notNanMask, listMean, List.zipWith]
  · norm_num [claimedMaskedLoss, listMean, List.zip, List.zipWith, List.filterMap]

/-- C6 (amended): score_submission takes the submission path and an optional save
path; with a truthy (non-empty) save path it dumps the scores dictionary to that file
and returns nothing, and with no save path it returns the scores dictionary. -/
theorem score_submission_save_behavior (fs : Fs) (zip_path : String) :
    (∀ p : String, p ≠ "" →
        score_submission fs zip_path (some p) =
          { written := [(p, score_submission_scores fs zip_path)], returned := none }) ∧
      score_submission fs zip_path none =
        { written := [], returned := some (score_submission_scores fs zip_path) } := by
  constructor
  · intro p hp
    have htr : truthy (some p) = true := by
      simp [truthy, hp]
    unfold score_submission
    rw [htr]
    rfl
  · rfl

/-- Witness for the C6 theorem at a concrete save path. -/
theorem score_submission_save_behavior_witness :
    score_submission [] "submission.zip" (some "scores.json") =
      { written := [("scores.json", score_submission_scores [] "submission.zip")],
        returned := none } :=
  (score_submission_save_behavior [] "submission.zip").1 "scores.json" (by decide)

/-- The claim of C6 as stated fails at the empty save path: Python treats the empty
string as false, so nothing is written and the scores dictionary is returned. -/
theorem score_submission_empty_save_path :
    score_submission [] "submission.zip" (some "") =
      { written := [], returned := some (score_submission_scores [] "submission.zip") } :=
  rfl

lemma alookup_setKey_same (kwargs : List (String × String)) (k v : String) :
    alookup (setKey kwargs k v) k = some v := by
  induction kwargs with
  | nil => simp [setKey, alookup]
  | cons e rest ih =>
    obtain ⟨k0, v0⟩ := e
    by_cases h : k0 = k
    · simp [setKey, h, alookup]
    · simp only [setKey, if_neg h, alookup, ih]

lemma alookup_setKey_other (kwargs : List (String × String)) (k v n : String)
    (h : k ≠ n) : alookup (setKey kwargs k v) n = alookup kwargs n := by
  induction kwargs with
  | nil => simp [setKey, alookup, h]
  | cons e rest ih =>
    obtain ⟨k0, v0⟩ := e
    by_cases h0 : k0 = k
    · subst h0
      simp only [setKey, if_pos rfl, alookup, if_neg h]
    · simp only [setKey, if_neg h0, alookup, ih]

/-- C10: the constructor of CellMapLossWrapper always forces the reduction entry of
the kwargs passed to the wrapped loss to the none-string, overriding any value the
caller supplied, and leaves every other entry unchanged. -/
theorem wrapper_init_forces_reduction_none (kwargs : List (String × String)) :
    alookup (wrapper_init_kwargs kwargs) "reduction" = some "none" ∧
      ∀ k, k ≠ "reduction" →
        alookup (wrapper_init_kwargs kwargs) k = alookup kwargs k := by
  constructor
  · exact alookup_setKey_same kwargs "reduction" "none"
  · intro k hk
    exact alookup_setKey_other kwargs "reduction" "none" k fun he => hk he.symm

/-- Witness for the C10 theorem: a caller-supplied reduction is overridden while the
weight entry survives. -/
theorem wrapper_init_forces_reduction_none_witness :
    alookup (wrapper_init_kwargs [("reduction", "mean"), ("weight", "w")]) "reduction" =
        some "none" ∧
      alookup (wrapper_init_kwargs [("reduction", "mean"), ("weight", "w")]) "weight" =
        alookup [("reduction", "mean"), ("weight", "w")] "weight" :=
  ⟨(wrapper_init_forces_reduction_none [("reduction", "mean"), ("weight", "w")]).1,
   (wrapper_init_forces_reduction_none [("reduction", "mean"), ("weight", "w")]).2
      "weight" (by decide)⟩

